import Mathlib

set_option maxRecDepth 4000

/-!
Shallow embedding of the heuristic speaker-turn / question-detection layer,
the transcript chunking and Q&A orchestration, and the cloud service adapters
of the conversation-assistant application, together with theorems settling the
claims about them.

JavaScript strings are modelled as lists of characters (`Str`), JavaScript
numbers appearing in the heuristic arithmetic as exact rationals (`ℚ`), and
wall-clock instants (milliseconds) as integers (`Int`).
-/

namespace ConversationWill

/-- Text of a JavaScript string, modelled as its list of characters. -/
abbrev Str := List Char

/-- JavaScript String.prototype.trim: remove whitespace from both ends. -/
def jsTrim (s : Str) : Str :=
  ((s.dropWhile Char.isWhitespace).reverse.dropWhile Char.isWhitespace).reverse

/-- JavaScript String.prototype.toLowerCase, on the ASCII range (all texts the
claims mention are ASCII): upper-case letters are mapped to lower case. -/
def jsLower (s : Str) : Str := s.map Char.toLower

/-- JavaScript s.startsWith(p): p is a leading piece of s. -/
def jsStartsWith : Str → Str → Bool
  | [], _ => true
  | _ :: _, [] => false
  | c :: p, d :: s => c == d && jsStartsWith p s

/-- JavaScript s.endsWith(c) for a one-character argument: the last character
of s is c. -/
def jsEndsWithChar (c : Char) (s : Str) : Bool := s.getLast? == some c

/-- JavaScript s.includes(needle): needle occurs contiguously inside s. -/
def jsIncludes (needle : Str) : Str → Bool
  | [] => needle.isEmpty
  | c :: rest => jsStartsWith needle (c :: rest) || jsIncludes needle rest

/-- JavaScript Math.abs on the numbers used by the heuristic. -/
def jsAbs (q : ℚ) : ℚ := if q < 0 then -q else q

/-- The fixed list of question starters of AzureSpeechService.isQuestion. -/
def questionStarters : List Str :=
  [ "what".toList, "when".toList, "where".toList, "why".toList, "who".toList,
    "whom".toList, "whose".toList, "which".toList, "how".toList,
    "can".toList, "could".toList, "would".toList, "should".toList,
    "will".toList, "shall".toList, "may".toList, "might".toList,
    "do".toList, "does".toList, "did".toList, "are".toList, "is".toList,
    "was".toList, "were".toList, "have".toList, "has".toList, "had".toList ]

/-- AzureSpeechService.isQuestion: the text is trimmed and lower-cased; a text
whose last character is a question mark is a question, and otherwise the text
is a question exactly when it starts with one of the fixed starters followed
by a space (JavaScript trimmed.startsWith(starter + ' ')). -/
def isQuestion (text : Str) : Bool :=
  let trimmed := jsLower (jsTrim text)
  if jsEndsWithChar '?' trimmed then
    true
  else
    questionStarters.any (fun starter => jsStartsWith (starter ++ [' ']) trimmed)

/-- One entry of the rolling speech history kept by the heuristic:
text, arrival time, the speaker label current when it was pushed, and the
audio level sampled at its arrival. -/
structure HistEntry where
  text : Str
  timestamp : Int
  speakerId : String
  audioLevel : ℚ
deriving DecidableEq

/-- The mutable fields of AzureSpeechService that the speaker decision reads
and writes: the last speaker label, the rolling utterance history, the rolling
audio level samples, the consecutive-utterance consistency counter and the
arrival time of the previous utterance. -/
structure SpeakerState where
  lastSpeakerId : String
  speechHistory : List HistEntry
  audioLevelHistory : List ℚ
  speakerConsistencyCounter : Nat
  lastSpeechTime : Int
deriving DecidableEq

/-- The initial values of the heuristic fields at session start. -/
def initialSpeakerState : SpeakerState :=
  { lastSpeakerId := "Speaker 1"
    speechHistory := []
    audioLevelHistory := []
    speakerConsistencyCounter := 0
    lastSpeechTime := 0 }

/-- The most recent audio level sample, or 0 when none exists yet. -/
def currentLevelOf (st : SpeakerState) : ℚ :=
  (st.audioLevelHistory.getLast?).getD 0

/-- JavaScript text.split(' ').length: one more than the number of space
characters. -/
def wordCount (text : Str) : Nat := text.count ' ' + 1

/-- The rough speech rate estimate wordCount / (textLength / 100) of the
heuristic.  (In the application the text of a finalized utterance is never
empty, so the denominator is nonzero there.) -/
def speechRateOf (text : Str) : ℚ :=
  (wordCount text : ℚ) / ((text.length : ℚ) / 100)

/-- JavaScript arr.slice(-n) for n at most the length: the last n elements. -/
def lastN (n : Nat) (l : List α) : List α := l.drop (l.length - n)

/-- JavaScript arr.reduce((a, b) => a + b, 0) / arr.length. -/
def avgQ (l : List ℚ) : ℚ := l.sum / (l.length : ℚ)

/-- Factor 1 of the speaker decision: a pause of more than 2500 ms since the
previous utterance votes for a switch. -/
def factor1 (pause : Int) : Bool := decide (2500 < pause)

/-- Factor 2 of the speaker decision: once the history (current utterance
included, it was pushed before the factors run) holds at least 3 entries, a
jump of more than 15 between the current audio level and the mean level of the
last 3 history entries, combined with a pause of more than 1500 ms, votes for
a switch. -/
def factor2 (hist : List HistEntry) (currentLevel : ℚ) (pause : Int) : Bool :=
  if 3 ≤ hist.length then
    decide ((15 : ℚ) < jsAbs (currentLevel - avgQ ((lastN 3 hist).map HistEntry.audioLevel))) &&
    decide (1500 < pause)
  else
    false

/-- Factor 3, first half: the previous utterance (the next-to-last history
entry) was a question, the current one is not, and the pause exceeds 800 ms. -/
def factor3qa (hist : List HistEntry) (isQ : Bool) (pause : Int) : Bool :=
  if 2 ≤ hist.length then
    match hist[hist.length - 2]? with
    | some lastU => isQuestion lastU.text && !isQ && decide (800 < pause)
    | none => false
  else
    false

/-- Factor 3, second half: the previous utterance was not a question, the
current one is, and the pause exceeds 1200 ms. -/
def factor3nq (hist : List HistEntry) (isQ : Bool) (pause : Int) : Bool :=
  if 2 ≤ hist.length then
    match hist[hist.length - 2]? with
    | some lastU => !isQuestion lastU.text && isQ && decide (1200 < pause)
    | none => false
  else
    false

/-- Factor 4 of the speaker decision: once the history holds at least 4
entries, a speech-rate difference of more than 1.5 against the mean rate of
the last 4 history entries, combined with a pause of more than 1800 ms, votes
for a switch. -/
def factor4 (hist : List HistEntry) (currentRate : ℚ) (pause : Int) : Bool :=
  if 4 ≤ hist.length then
    decide ((3 : ℚ) / 2 < jsAbs (currentRate - avgQ ((lastN 4 hist).map (fun h => speechRateOf h.text)))) &&
    decide (1800 < pause)
  else
    false

/-- The disjunction of the four voting factors of the speaker decision. -/
def anyVote (hist : List HistEntry) (text : Str) (pause : Int) (level : ℚ) : Bool :=
  factor1 pause ||
  factor2 hist level pause ||
  factor3qa hist (isQuestion text) pause ||
  factor3nq hist (isQuestion text) pause ||
  factor4 hist (speechRateOf text) pause

/-- Factor 5, the anti-flutter guard: a firing vote is vetoed when fewer than
2 consecutive utterances went to the current speaker and the pause is under
3000 ms. -/
def vetoed (counter : Nat) (pause : Int) : Bool :=
  decide (counter < 2) && decide (pause < 3000)

/-- The two-identity speaker toggle applied on a switch. -/
def toggleSpeaker (s : String) : String :=
  if s = "Speaker 1" then "Speaker 2" else "Speaker 1"

/-- The history update at the start of the decision: the current utterance is
pushed (carrying the still-current speaker label), then the history is trimmed
to the last 15 entries. -/
def pushHistory (st : SpeakerState) (text : Str) (currentTime : Int) (level : ℚ) :
    List HistEntry :=
  let h := st.speechHistory ++ [⟨text, currentTime, st.lastSpeakerId, level⟩]
  if 15 < h.length then h.tail else h

/-- The outcome of one speaker decision: the updated heuristic state, the
returned speaker label, and whether a switch was applied. -/
structure StepResult where
  state : SpeakerState
  speaker : String
  switched : Bool
deriving DecidableEq

/-- AzureSpeechService.determineSpeakerFromContext: push the utterance into
the rolling history, evaluate the four voting factors against the pause since
the previous utterance, apply the anti-flutter veto, and either toggle the
speaker label (resetting the consistency counter) or keep it (incrementing
the counter).  The arrival time of the utterance (Date.now() in the source)
is the parameter currentTime. -/
def determineSpeakerFromContext (st : SpeakerState) (text : Str) (currentTime : Int) :
    StepResult :=
  if anyVote (pushHistory st text currentTime (currentLevelOf st)) text
       (currentTime - st.lastSpeechTime) (currentLevelOf st) &&
     !vetoed st.speakerConsistencyCounter (currentTime - st.lastSpeechTime) then
    { state :=
        { lastSpeakerId := toggleSpeaker st.lastSpeakerId
          speechHistory := pushHistory st text currentTime (currentLevelOf st)
          audioLevelHistory := st.audioLevelHistory
          speakerConsistencyCounter := 0
          lastSpeechTime := currentTime }
      speaker := toggleSpeaker st.lastSpeakerId
      switched := true }
  else
    { state :=
        { lastSpeakerId := st.lastSpeakerId
          speechHistory := pushHistory st text currentTime (currentLevelOf st)
          audioLevelHistory := st.audioLevelHistory
          speakerConsistencyCounter := st.speakerConsistencyCounter + 1
          lastSpeechTime := currentTime }
      speaker := st.lastSpeakerId
      switched := false }

/-- Processing a list of utterances (text and arrival time) in order. -/
def runUtterances (st : SpeakerState) : List (Str × Int) → SpeakerState
  | [] => st
  | (text, t) :: rest =>
      runUtterances (determineSpeakerFromContext st text t).state rest

/-- Every decision along the run of the given utterances leaves the speaker
unchanged (no switch is applied anywhere). -/
def noSwitchRun (st : SpeakerState) : List (Str × Int) → Bool
  | [] => true
  | (text, t) :: rest =>
      !(determineSpeakerFromContext st text t).switched &&
      noSwitchRun (determineSpeakerFromContext st text t).state rest

/-- A finalized transcript segment as the orchestrator stores it (the fields
the chunking and Q&A paths read). -/
structure TranscriptSeg where
  id : String
  text : Str
  speakerId : String
  timestamp : Int
  isQuestion : Bool
deriving DecidableEq

/-- A summary chunk as AppContext.createSummary constructs it.  The id is
Date.now().toString() in the source and is modelled by the timestamp itself. -/
structure SummaryChunk where
  id : Int
  startTime : Int
  endTime : Int
  summary : Str
  relatedTranscriptIds : List String
deriving DecidableEq

/-- Outcome of one network interaction (an LLM chat-completion call or a
speech token request): the response body on success, or a network error or a
non-ok HTTP status, which the adapters turn into a thrown error. -/
inductive NetOutcome where
  | success (body : Str)
  | failure
deriving DecidableEq

/-- AppContext.createSummary: nothing happens when the LLM service is not
initialized or the transcript is empty; otherwise generateSummary is awaited
over the ENTIRE current transcript and, on success, a chunk is appended whose
relatedTranscriptIds are the ids of every segment of the current transcript.
A failed request produces no chunk. -/
def createSummary (serviceInit : Bool) (llm : NetOutcome)
    (transcript : List TranscriptSeg) (now : Int) : Option SummaryChunk :=
  match serviceInit, llm, transcript with
  | false, _, _ => none
  | _, _, [] => none
  | true, .failure, _ :: _ => none
  | true, .success summaryText, first :: rest =>
      some
        { id := now
          startTime := first.timestamp
          endTime := (List.getLastD rest first).timestamp
          summary := summaryText
          relatedTranscriptIds := (first :: rest).map TranscriptSeg.id }

/-- The relatedTranscriptIds of the chunk produced by a (successful) summary
flush that fires when the first k segments of the session have arrived; the
empty list when no chunk is produced. -/
def flushChunkIds (segments : List TranscriptSeg) (k : Nat) : List String :=
  match createSummary true (.success []) (segments.take k) 0 with
  | some c => c.relatedTranscriptIds
  | none => []

/-- The id lists of all chunks produced in one session whose segments arrive
in order and in which (successful) summary flushes fire after the given
prefix lengths. -/
def sessionChunkIds (segments : List TranscriptSeg) (flushCounts : List Nat) :
    List (List String) :=
  flushCounts.filterMap (fun k =>
    (createSummary true (.success []) (segments.take k) 0).map
      SummaryChunk.relatedTranscriptIds)

/-- The stop branch of AppContext.toggleRecording: the recording state is set
to not-recording; if the speech service exists and stopRecognition succeeds,
a final createSummary is issued whenever the transcript is non-empty (one
summary request over the whole transcript); a failure of stopRecognition is
caught and skips the final flush.  The result is the recording flag
afterwards together with the list of summary requests issued, each carrying
the ids of the segments it covers. -/
def toggleRecordingStop (speechInit stopOk openaiInit : Bool)
    (transcript : List TranscriptSeg) : Bool × List (List String) :=
  if speechInit then
    if stopOk then
      (false,
        if openaiInit && !transcript.isEmpty then
          [transcript.map TranscriptSeg.id]
        else [])
    else (false, [])
  else (false, [])

/-- Configuration of the LLM adapter. -/
structure AzureOpenAIConfig where
  endpoint : String
  subscriptionKey : String
  deploymentName : String

/-- Configuration of the speech adapter. -/
structure AzureSTTConfig where
  endpoint : String
  region : String
  subscriptionKey : String

/-- JavaScript falsiness of a string field: !s holds exactly for the empty
string. -/
def strFalsy (s : String) : Bool := s == ""

/-- The credential check at the top of generateSummary and answerQuestion. -/
def openAIConfigMissing (cfg : AzureOpenAIConfig) : Bool :=
  strFalsy cfg.endpoint || strFalsy cfg.subscriptionKey || strFalsy cfg.deploymentName

/-- The credential check of startRecognition and checkConnection on the
speech side. -/
def sttConfigMissing (cfg : AzureSTTConfig) : Bool :=
  strFalsy cfg.endpoint || strFalsy cfg.subscriptionKey || strFalsy cfg.region

/-- The errors an adapter operation can reject with: the fail-fast
configuration error thrown before any network interaction, or the error
thrown when the network call fails or returns a non-ok status. -/
inductive OpError where
  | notConfigured
  | requestFailed
deriving DecidableEq

/-- One adapter operation run: how many network requests were attempted, and
the value it resolved with or the error it rejected with. -/
structure OpRun (α : Type) where
  requests : Nat
  result : Except OpError α

/-- AzureOpenAIService.generateSummary: reject with the configuration error
before any request when a credential field is empty; otherwise issue the
chat-completion request and resolve with its body or reject on failure. -/
def generateSummaryRun (cfg : AzureOpenAIConfig) (net : NetOutcome) : OpRun Str :=
  if openAIConfigMissing cfg then
    ⟨0, .error .notConfigured⟩
  else
    match net with
    | .success body => ⟨1, .ok body⟩
    | .failure => ⟨1, .error .requestFailed⟩

/-- AzureOpenAIService.handleRealTimeQuestion: a locally produced answer for
time and date questions, keyed on substrings of the lower-cased trimmed
question; nowTimeText and nowDateText stand for the clock-dependent answer
strings built from new Date(). -/
def handleRealTimeQuestion (nowTimeText nowDateText : Str) (question : Str) :
    Option Str :=
  let lowerQuestion := jsTrim (jsLower question)
  if jsIncludes "time".toList lowerQuestion &&
     (jsIncludes "what".toList lowerQuestion ||
      jsIncludes "current".toList lowerQuestion) then
    some nowTimeText
  else if (jsIncludes "date".toList lowerQuestion ||
           jsIncludes "today".toList lowerQuestion) &&
          jsIncludes "what".toList lowerQuestion then
    some nowDateText
  else
    none

/-- AzureOpenAIService.answerQuestion: reject with the configuration error
before any request when a credential field is empty; otherwise answer
real-time time/date questions locally without a request, and for all other
questions issue the chat-completion request, resolving with its body or
rejecting on failure. -/
def answerQuestionRun (cfg : AzureOpenAIConfig) (net : NetOutcome)
    (nowTimeText nowDateText question : Str) : OpRun Str :=
  if openAIConfigMissing cfg then
    ⟨0, .error .notConfigured⟩
  else
    match handleRealTimeQuestion nowTimeText nowDateText question with
    | some a => ⟨0, .ok a⟩
    | none =>
        match net with
        | .success body => ⟨1, .ok body⟩
        | .failure => ⟨1, .error .requestFailed⟩

/-- AzureSpeechService.startRecognition: a call while already listening
returns immediately (no error, no request); otherwise an empty endpoint,
subscription key or region rejects with the configuration error before any
request, and with credentials present the token acquisition and SDK start are
attempted, any failure being rethrown as a rejection. -/
def startRecognitionRun (isListening : Bool) (cfg : AzureSTTConfig)
    (net : NetOutcome) : OpRun Unit :=
  if isListening then
    ⟨0, .ok ()⟩
  else if sttConfigMissing cfg then
    ⟨0, .error .notConfigured⟩
  else
    match net with
    | .success _ => ⟨1, .ok ()⟩
    | .failure => ⟨1, .error .requestFailed⟩

/-- A question/answer pair as the orchestrator stores it.  The id is
Date.now().toString() in the source and is modelled by the timestamp itself. -/
structure QAPair where
  id : Int
  question : Str
  answer : Str
  timestamp : Int
  isManual : Bool
deriving DecidableEq

/-- The fallback answer text appended when answerQuestion rejects. -/
def fallbackAnswer : Str :=
  "I".toList ++ ['\''] ++ "m sorry, I couldn".toList ++ ['\''] ++
  "t process that question. Please try again.".toList

/-- AppContext.handleQuestion (speech-detected questions): without an
initialized LLM service nothing happens; otherwise answerQuestion is awaited
and exactly one QAPair with isManual = false is appended, carrying the
resolved answer or, on rejection, the fallback answer text. -/
def handleQuestion (serviceInit : Bool) (outcome : NetOutcome) (question : Str)
    (now : Int) (qaList : List QAPair) : List QAPair :=
  if !serviceInit then
    qaList
  else
    match outcome with
    | .success a => qaList ++ [⟨now, question, a, now, false⟩]
    | .failure => qaList ++ [⟨now, question, fallbackAnswer, now, false⟩]

/-- AppContext.askQuestion (manually submitted questions): the same appending
behaviour as handleQuestion, with isManual = true. -/
def askQuestion (serviceInit : Bool) (outcome : NetOutcome) (question : Str)
    (now : Int) (qaList : List QAPair) : List QAPair :=
  if !serviceInit then
    qaList
  else
    match outcome with
    | .success a => qaList ++ [⟨now, question, a, now, true⟩]
    | .failure => qaList ++ [⟨now, question, fallbackAnswer, now, true⟩]

/-! ## Claim C1: the specification scenario -/

/-- First utterance of the specification scenario, arriving at t = 0 ms. -/
def scenarioU1 : Str := "What is the plan?".toList

/-- Second utterance of the scenario, arriving at t = 900 ms. -/
def scenarioU2 : Str := "We should ship Friday.".toList

/-- Third utterance of the scenario, arriving at t = 4000 ms. -/
def scenarioU3 : Str := "Sounds good to me.".toList

/-- The heuristic run on the first scenario utterance from a fresh state. -/
def scenarioStep1 : StepResult :=
  determineSpeakerFromContext initialSpeakerState scenarioU1 0

/-- The heuristic run on the second scenario utterance. -/
def scenarioStep2 : StepResult :=
  determineSpeakerFromContext scenarioStep1.state scenarioU2 900

/-- The heuristic run on the third scenario utterance. -/
def scenarioStep3 : StepResult :=
  determineSpeakerFromContext scenarioStep2.state scenarioU3 4000

/-- The first whitespace-delimited word of a text. -/
def firstWord (s : Str) : Str := s.takeWhile (fun c => !c.isWhitespace)

/-- The question classifier exactly as claim C3 words it: the trimmed text
ends in a question mark, or its first word matches one of the fixed starters
case-insensitively.  Kept separate from isQuestion (which follows the source)
so the two can be compared. -/
def isQuestionClaim (text : Str) : Bool :=
  let trimmed := jsLower (jsTrim text)
  jsEndsWithChar '?' trimmed ||
  questionStarters.any (fun starter => firstWord trimmed == starter)

/-- The audio-level-jump signal exactly as claim C6 words it: at least 3
PRIOR utterances exist, the current level differs from the mean level of the
last 3 prior utterances by more than 15, and the pause exceeds 1500 ms.
Kept separate from factor2 (which follows the source) for comparison. -/
def audioJumpClaim (prior : List HistEntry) (currentLevel : ℚ) (pause : Int) : Bool :=
  decide (3 ≤ prior.length) &&
  decide ((15 : ℚ) < jsAbs (currentLevel - avgQ ((lastN 3 prior).map HistEntry.audioLevel))) &&
  decide (1500 < pause)

/-- A prior history entry used by the C6 counterexample (audio level 0). -/
def c6PriorEntry : HistEntry := ⟨"Okay.".toList, 0, "Speaker 1", 0⟩

/-- The current-utterance history entry of the C6 counterexample (audio
level 60, pushed before the factors run, as the source does). -/
def c6CurrentEntry : HistEntry := ⟨"Right.".toList, 1600, "Speaker 1", 60⟩

/-- The current utterance forms a lexical question/answer or answer/question
transition with the previous one: the question flags of the two differ. -/
def lexicalTransitionWithPrevious (st : SpeakerState) (text : Str) : Bool :=
  match st.speechHistory.getLast? with
  | some prev => isQuestion prev.text != isQuestion text
  | none => false

/-- First segment of the C2 and C7 concrete sessions. -/
def segA : TranscriptSeg := ⟨"a", "Hello.".toList, "Speaker 1", 0, false⟩

/-- Second segment of the C2 concrete session. -/
def segB : TranscriptSeg := ⟨"b", "Hi.".toList, "Speaker 1", 900, false⟩

/-- C1 counterexample: on the scenario utterances ("What is the plan?" at
t = 0, "We should ship Friday." at t = 900 ms, "Sounds good to me." at
t = 4000 ms, fresh heuristic state) the speaker label does NOT switch after
utterance 2: the second segment carries the same label as the first, so the
claimed alternation at that point is false. -/
theorem c1_counterexample :
    scenarioStep2.speaker = scenarioStep1.speaker ∧
    scenarioStep2.switched = false := by
  decide

/-- C1 (amended): on the scenario the question flags are {true, false, false};
the question-to-answer vote does fire after utterance 2 (pause 900 ms > 800 ms)
but is vetoed by the anti-flutter guard (only 1 consecutive utterance on the
current speaker and pause 900 ms < 3000 ms), so no switch happens there; after
utterance 3 the long pause (3100 ms > 2500 ms) fires with the guard inactive
(counter 2, pause over 3000 ms) and the single switch of the scenario is
applied: the labels are Speaker 1, Speaker 1, Speaker 2. -/
theorem c1_scenario_run :
    isQuestion scenarioU1 = true ∧
    isQuestion scenarioU2 = false ∧
    isQuestion scenarioU3 = false ∧
    factor3qa (pushHistory scenarioStep1.state scenarioU2 900 (currentLevelOf scenarioStep1.state))
      (isQuestion scenarioU2) (900 - scenarioStep1.state.lastSpeechTime) = true ∧
    vetoed scenarioStep1.state.speakerConsistencyCounter
      (900 - scenarioStep1.state.lastSpeechTime) = true ∧
    scenarioStep1.speaker = "Speaker 1" ∧ scenarioStep1.switched = false ∧
    scenarioStep2.speaker = "Speaker 1" ∧ scenarioStep2.switched = false ∧
    scenarioStep3.speaker = "Speaker 2" ∧ scenarioStep3.switched = true := by
  decide

/-! ## Claim C3: the question classifier -/


/-- jsStartsWith p s holds exactly when s is p followed by some remainder. -/
theorem jsStartsWith_iff (p s : Str) :
    jsStartsWith p s = true ↔ ∃ r, s = p ++ r := by
  induction p generalizing s with
  | nil => simp [jsStartsWith]
  | cons c p ih =>
      cases s with
      | nil => simp [jsStartsWith]
      | cons d s =>
          simp only [jsStartsWith, Bool.and_eq_true, beq_iff_eq, ih,
            List.cons_append, List.cons.injEq]
          constructor
          · rintro ⟨rfl, r, rfl⟩
            exact ⟨r, rfl, rfl⟩
          · rintro ⟨r, rfl, rfl⟩
            exact ⟨rfl, r, rfl⟩

/-- C3 counterexample: the single-word text "What" has a starter as its first
word, so the claim classifies it as a question, but the code requires the
starter to be followed by a space and returns false. -/
theorem c3_counterexample :
    isQuestionClaim "What".toList = true ∧ isQuestion "What".toList = false := by
  decide

/-- C3 (amended): the classifier returns true exactly when the trimmed
(lower-cased) text ends in a question mark, or it begins with one of the
fixed starters followed by a space character — so a text consisting of a
starter word alone, with nothing after it, is not classified as a question. -/
theorem c3_amended (text : Str) :
    isQuestion text = true ↔
      ((jsLower (jsTrim text)).getLast? = some '?' ∨
        ∃ starter ∈ questionStarters, ∃ rest : Str,
          jsLower (jsTrim text) = starter ++ ' ' :: rest) := by
  simp only [isQuestion]
  by_cases hE : jsEndsWithChar '?' (jsLower (jsTrim text)) = true
  · have hE' : (jsLower (jsTrim text)).getLast? = some '?' := by
      simpa [jsEndsWithChar] using hE
    simp [hE, hE']
  · have hE' : ¬ (jsLower (jsTrim text)).getLast? = some '?' := by
      simpa [jsEndsWithChar] using hE
    rw [if_neg hE]
    simp only [hE', false_or, List.any_eq_true, jsStartsWith_iff]
    constructor
    · rintro ⟨starter, hmem, r, hr⟩
      exact ⟨starter, hmem, r, by simpa [List.append_assoc] using hr⟩
    · rintro ⟨starter, hmem, r, hr⟩
      exact ⟨starter, hmem, r, by simpa [List.append_assoc] using hr⟩

/-! ## Claim C6: the audio-level-jump signal -/


/-- C6 counterexample: with only 2 prior utterances (both at level 0) and the
current utterance at level 60 after a 1600 ms pause, the signal in the code fires
(the history pushed with the current utterance has 3 entries and the mean it
uses includes the current level: |60 - 20| = 40 > 15), while the claim says
the signal requires 3 prior utterances and so must not fire. -/
theorem c6_counterexample :
    factor2 ([c6PriorEntry, c6PriorEntry] ++ [c6CurrentEntry])
      c6CurrentEntry.audioLevel 1600 = true ∧
    audioJumpClaim [c6PriorEntry, c6PriorEntry] c6CurrentEntry.audioLevel 1600 = false := by
  with_unfolding_all decide

/-- C6 (amended): the audio-level-jump vote fires exactly when at least 2
prior utterances exist in the rolling history, the current audio level
differs by more than 15 from the mean of the last 3 history entries counting
the current utterance itself (the last 2 prior levels and the current one),
and the pause exceeds 1500 ms. -/
theorem c6_amended (prior : List HistEntry) (cur : HistEntry) (pause : Int) :
    factor2 (prior ++ [cur]) cur.audioLevel pause = true ↔
      (2 ≤ prior.length ∧
       (15 : ℚ) < jsAbs (cur.audioLevel -
         avgQ (((lastN 2 prior).map HistEntry.audioLevel) ++ [cur.audioLevel])) ∧
       1500 < pause) := by
  unfold factor2
  by_cases h : 2 ≤ prior.length
  · have h3 : 3 ≤ (prior ++ [cur]).length := by
      simp only [List.length_append, List.length_cons, List.length_nil]
      omega
    rw [if_pos h3]
    have hl : lastN 3 (prior ++ [cur]) = lastN 2 prior ++ [cur] := by
      unfold lastN
      have hlen : (prior ++ [cur]).length - 3 = prior.length - 2 := by
        simp only [List.length_append, List.length_cons, List.length_nil]
        omega
      rw [hlen, List.drop_append_of_le_length (by omega)]
    rw [hl]
    simp [h, List.map_append]
  · have h3 : ¬ 3 ≤ (prior ++ [cur]).length := by
      simp only [List.length_append, List.length_cons, List.length_nil]
      omega
    rw [if_neg h3]
    simp [h]

/-! ## Helper lemmas about the speaker decision -/

/-- Every speaker decision is one of two outcomes: the switch outcome
(label toggled, counter 0) or the keep outcome (label kept, counter
incremented); both push the utterance into the history and update the last
speech time. -/
theorem step_cases (st : SpeakerState) (text : Str) (t : Int) :
    determineSpeakerFromContext st text t =
      ⟨⟨toggleSpeaker st.lastSpeakerId, pushHistory st text t (currentLevelOf st),
        st.audioLevelHistory, 0, t⟩, toggleSpeaker st.lastSpeakerId, true⟩ ∨
    determineSpeakerFromContext st text t =
      ⟨⟨st.lastSpeakerId, pushHistory st text t (currentLevelOf st),
        st.audioLevelHistory, st.speakerConsistencyCounter + 1, t⟩,
        st.lastSpeakerId, false⟩ := by
  unfold determineSpeakerFromContext
  split
  · left
    rfl
  · right
    rfl

/-- factor1 cannot fire for a pause of at most 2500 ms. -/
theorem factor1_eq_false_of_le {pause : Int} (h : pause ≤ 2500) :
    factor1 pause = false := by
  simp only [factor1, decide_eq_false_iff_not, not_lt]
  exact h

/-- factor2 cannot fire for a pause of at most 1500 ms. -/
theorem factor2_eq_false_of_le {hist : List HistEntry} {level : ℚ} {pause : Int}
    (h : pause ≤ 1500) : factor2 hist level pause = false := by
  have hd : decide (1500 < pause) = false := by
    simp only [decide_eq_false_iff_not, not_lt]
    exact h
  unfold factor2
  split <;> simp [hd]

/-- factor3qa cannot fire for a pause of at most 800 ms. -/
theorem factor3qa_eq_false_of_le {hist : List HistEntry} {isQ : Bool} {pause : Int}
    (h : pause ≤ 800) : factor3qa hist isQ pause = false := by
  have hd : decide (800 < pause) = false := by
    simp only [decide_eq_false_iff_not, not_lt]
    exact h
  unfold factor3qa
  split
  · split <;> simp [hd]
  · rfl

/-- factor3nq cannot fire for a pause of at most 1200 ms. -/
theorem factor3nq_eq_false_of_le {hist : List HistEntry} {isQ : Bool} {pause : Int}
    (h : pause ≤ 1200) : factor3nq hist isQ pause = false := by
  have hd : decide (1200 < pause) = false := by
    simp only [decide_eq_false_iff_not, not_lt]
    exact h
  unfold factor3nq
  split
  · split <;> simp [hd]
  · rfl

/-- factor4 cannot fire for a pause of at most 1800 ms. -/
theorem factor4_eq_false_of_le {hist : List HistEntry} {rate : ℚ} {pause : Int}
    (h : pause ≤ 1800) : factor4 hist rate pause = false := by
  have hd : decide (1800 < pause) = false := by
    simp only [decide_eq_false_iff_not, not_lt]
    exact h
  unfold factor4
  split <;> simp [hd]

/-- No voting signal at all can fire for a pause of at most 800 ms. -/
theorem anyVote_eq_false_of_le {hist : List HistEntry} {text : Str} {pause : Int}
    {level : ℚ} (h : pause ≤ 800) : anyVote hist text pause level = false := by
  unfold anyVote
  rw [factor1_eq_false_of_le (by omega), factor2_eq_false_of_le (by omega),
    factor3qa_eq_false_of_le (by omega), factor3nq_eq_false_of_le (by omega),
    factor4_eq_false_of_le (by omega)]
  rfl

/-! ## Claim C4: short pauses never switch the speaker -/


/-- C4: for every heuristic state and every utterance whose pause since the
previous utterance is at most 800 ms, if the utterance does not form a
lexical question/answer or answer/question transition with the previous one,
the decision applies no switch and the speaker label is unchanged.  (The
code satisfies this even without the transition hypothesis: every voting
signal requires a pause of more than 800 ms.) -/
theorem c4_short_pause_no_switch (st : SpeakerState) (text : Str) (t : Int)
    (hpause : t - st.lastSpeechTime ≤ 800)
    (htrans : lexicalTransitionWithPrevious st text = false) :
    (determineSpeakerFromContext st text t).switched = false ∧
    (determineSpeakerFromContext st text t).state.lastSpeakerId = st.lastSpeakerId := by
  have hv : anyVote (pushHistory st text t (currentLevelOf st)) text
      (t - st.lastSpeechTime) (currentLevelOf st) = false :=
    anyVote_eq_false_of_le hpause
  unfold determineSpeakerFromContext
  rw [hv]
  simp

/-- Witness for C4 at a concrete input: an utterance 500 ms after the
previous one, from a fresh state, keeps the speaker unchanged. -/
theorem c4_witness :
    (determineSpeakerFromContext initialSpeakerState "Okay.".toList 500).switched = false ∧
    (determineSpeakerFromContext initialSpeakerState "Okay.".toList 500).state.lastSpeakerId =
      initialSpeakerState.lastSpeakerId :=
  c4_short_pause_no_switch initialSpeakerState ("Okay.".toList) 500 (by decide) (by decide)

/-! ## Claim C5: consistency counter and two-identity toggle -/

/-- After processing a run of utterances none of which switched the speaker,
the consistency counter has grown by exactly the length of the run. -/
theorem runUtterances_counter (inputs : List (Str × Int)) :
    ∀ st : SpeakerState, noSwitchRun st inputs = true →
      (runUtterances st inputs).speakerConsistencyCounter =
        st.speakerConsistencyCounter + inputs.length := by
  induction inputs with
  | nil =>
      intro st _
      simp [runUtterances]
  | cons p rest ih =>
      intro st h
      obtain ⟨text, t⟩ := p
      unfold noSwitchRun at h
      rw [Bool.and_eq_true] at h
      obtain ⟨h1, h2⟩ := h
      unfold runUtterances
      rw [ih _ h2]
      rcases step_cases st text t with hc | hc
      · rw [hc] at h1
        simp at h1
      · rw [hc]
        simp only [List.length_cons]
        omega

/-- C5: whenever a switch is applied the consistency counter is exactly 0
immediately afterwards; after N consecutive decisions without a switch
(starting from a counter of 0) the counter equals N; and a switch always
replaces the label by its two-identity toggle, so from a label in
{Speaker 1, Speaker 2} it lands on the other one. -/
theorem c5_counter_reset_and_toggle :
    (∀ (st : SpeakerState) (text : Str) (t : Int),
        (determineSpeakerFromContext st text t).switched = true →
        (determineSpeakerFromContext st text t).state.speakerConsistencyCounter = 0) ∧
    (∀ (st : SpeakerState) (inputs : List (Str × Int)),
        st.speakerConsistencyCounter = 0 → noSwitchRun st inputs = true →
        (runUtterances st inputs).speakerConsistencyCounter = inputs.length) ∧
    (∀ (st : SpeakerState) (text : Str) (t : Int),
        (determineSpeakerFromContext st text t).switched = true →
        (determineSpeakerFromContext st text t).state.lastSpeakerId =
          toggleSpeaker st.lastSpeakerId ∧
        ((st.lastSpeakerId = "Speaker 1" ∨ st.lastSpeakerId = "Speaker 2") →
          (determineSpeakerFromContext st text t).state.lastSpeakerId ≠ st.lastSpeakerId ∧
          ((determineSpeakerFromContext st text t).state.lastSpeakerId = "Speaker 1" ∨
            (determineSpeakerFromContext st text t).state.lastSpeakerId = "Speaker 2"))) := by
  refine ⟨?_, ?_, ?_⟩
  · intro st text t h
    rcases step_cases st text t with hc | hc
    · rw [hc]
    · rw [hc] at h
      simp at h
  · intro st inputs h0 hrun
    rw [runUtterances_counter inputs st hrun, h0, Nat.zero_add]
  · intro st text t h
    rcases step_cases st text t with hc | hc
    · rw [hc]
      refine ⟨rfl, ?_⟩
      rintro (h1 | h1) <;> rw [h1] <;> unfold toggleSpeaker <;> simp
    · rw [hc] at h
      simp at h

/-- Witness for C5 at concrete inputs: a long-pause switch from a settled
state resets the counter to 0 and toggles the label, and a one-utterance
no-switch run from a fresh state leaves the counter at 1. -/
theorem c5_witness :
    (determineSpeakerFromContext ⟨"Speaker 1", [], [], 5, 0⟩ "Hello there.".toList 5000).state.speakerConsistencyCounter = 0 ∧
    (runUtterances ⟨"Speaker 1", [], [], 0, 0⟩ [("Okay.".toList, 100)]).speakerConsistencyCounter = 1 ∧
    (determineSpeakerFromContext ⟨"Speaker 1", [], [], 5, 0⟩ "Hello there.".toList 5000).state.lastSpeakerId = toggleSpeaker "Speaker 1" := by
  obtain ⟨h1, h2, h3⟩ := c5_counter_reset_and_toggle
  exact ⟨h1 ⟨"Speaker 1", [], [], 5, 0⟩ ("Hello there.".toList) 5000 (by decide),
    h2 ⟨"Speaker 1", [], [], 0, 0⟩ [(("Okay.".toList : Str), (100 : Int))] rfl (by decide),
    (h3 ⟨"Speaker 1", [], [], 5, 0⟩ ("Hello there.".toList) 5000 (by decide)).1⟩

/-! ## Claim C9: the first utterance of a session -/

/-- C9: from a fresh heuristic state (empty history, counter 0, label
Speaker 1, lastSpeechTime 0) the first finalized utterance always switches:
its pause is the wall-clock arrival time itself, which (being at least
3000 ms after the epoch for any real clock) fires the long-pause vote and
escapes the anti-flutter veto, so the first segment is attributed to
Speaker 2. -/
theorem c9_first_utterance_switches (st : SpeakerState) (text : Str) (t : Int)
    (hsp : st.lastSpeakerId = "Speaker 1") (hh : st.speechHistory = [])
    (hc : st.speakerConsistencyCounter = 0) (hl : st.lastSpeechTime = 0)
    (ht : 3000 ≤ t) :
    (determineSpeakerFromContext st text t).switched = true ∧
    (determineSpeakerFromContext st text t).speaker = "Speaker 2" := by
  have hvote : anyVote (pushHistory st text t (currentLevelOf st)) text
      (t - st.lastSpeechTime) (currentLevelOf st) = true := by
    unfold anyVote
    have h1 : factor1 (t - st.lastSpeechTime) = true := by
      simp only [factor1, hl, decide_eq_true_eq]
      omega
    rw [h1]
    simp
  have hveto : vetoed st.speakerConsistencyCounter (t - st.lastSpeechTime) = false := by
    simp only [vetoed, hc, hl]
    simp only [Bool.and_eq_false_iff, decide_eq_false_iff_not, not_lt]
    right
    omega
  unfold determineSpeakerFromContext
  rw [hvote, hveto]
  simp [hsp, toggleSpeaker]

/-- Witness for C9 at a concrete input: the first utterance arriving 5000 ms
after the epoch from the fresh state is attributed to Speaker 2. -/
theorem c9_witness :
    (determineSpeakerFromContext initialSpeakerState "Hello everyone.".toList 5000).switched = true ∧
    (determineSpeakerFromContext initialSpeakerState "Hello everyone.".toList 5000).speaker = "Speaker 2" :=
  c9_first_utterance_switches initialSpeakerState ("Hello everyone.".toList) 5000
    rfl rfl rfl rfl (by decide)

/-! ## Claim C2: summary chunks and the transcript -/

/-- Every (successful) flush produces a chunk whose relatedTranscriptIds are
the ids of the whole transcript at that moment. -/
theorem flushChunkIds_eq (segments : List TranscriptSeg) (k : Nat) :
    flushChunkIds segments k = (segments.take k).map TranscriptSeg.id := by
  unfold flushChunkIds createSummary
  cases h : segments.take k with
  | nil => simp [h]
  | cons a l => simp [h]


/-- C2 counterexample: in a session with two segments and two successful
flushes (one after each segment) the first chunk carries id a and the second
carries ids a and b, so segment a appears in two chunks: the chunks do not
partition the transcript even though their union is the full id set. -/
theorem c2_counterexample :
    sessionChunkIds [segA, segB] [1, 2] = [["a"], ["a", "b"]] ∧
    ((sessionChunkIds [segA, segB] [1, 2]).filter (fun ids => ids.contains "a")).length = 2 := by
  decide

/-- C2 (amended): createSummary covers the ENTIRE current transcript on every
flush, so the id lists of successive chunks of a session are nested rather
than disjoint (every id of an earlier chunk recurs in every later one), and
the chunk of a final flush over the whole session alone contains every
segment id — the union is the full id set, but ids repeat across chunks
whenever more than one chunk is produced. -/
theorem c2_amended_cumulative (segments : List TranscriptSeg) (k1 k2 : Nat)
    (h12 : k1 ≤ k2) :
    (∀ i ∈ flushChunkIds segments k1, i ∈ flushChunkIds segments k2) ∧
    (∀ s ∈ segments, s.id ∈ flushChunkIds segments segments.length) := by
  rw [flushChunkIds_eq, flushChunkIds_eq, flushChunkIds_eq]
  constructor
  · intro i hi
    rw [List.mem_map] at hi ⊢
    obtain ⟨s, hs, rfl⟩ := hi
    refine ⟨s, ?_, rfl⟩
    have hk : segments.take k1 = (segments.take k2).take k1 := by
      rw [List.take_take, min_eq_left h12]
    rw [hk] at hs
    exact List.take_subset _ _ hs
  · intro s hs
    rw [List.take_length]
    exact List.mem_map_of_mem _ hs

/-- Witness for C2 (amended) at the concrete two-segment session: the id of
the first chunk recurs in the second chunk, and the final chunk contains the
id of the last segment. -/
theorem c2_witness :
    "a" ∈ flushChunkIds [segA, segB] 2 ∧ segB.id ∈ flushChunkIds [segA, segB] 2 :=
  ⟨(c2_amended_cumulative [segA, segB] 1 2 (by decide)).1 "a" (by decide),
    (c2_amended_cumulative [segA, segB] 1 2 (by decide)).2 segB (by decide)⟩

/-! ## Claim C7: the final flush on stop -/

/-- C7: stopping a recording session (speech service present, stop call
succeeding, LLM service initialized) while not-yet-summarized segments
remain issues exactly one trailing summary request, covering those segments
(it spans the whole transcript), and leaves the recording state idle. -/
theorem c7_final_flush (speechInit stopOk openaiInit : Bool)
    (transcript unflushed : List TranscriptSeg)
    (h1 : speechInit = true) (h2 : stopOk = true) (h3 : openaiInit = true)
    (h4 : unflushed ≠ []) (h5 : ∀ s ∈ unflushed, s ∈ transcript) :
    (toggleRecordingStop speechInit stopOk openaiInit transcript).1 = false ∧
    (toggleRecordingStop speechInit stopOk openaiInit transcript).2 =
      [transcript.map TranscriptSeg.id] ∧
    ∀ s ∈ unflushed, s.id ∈ transcript.map TranscriptSeg.id := by
  subst h1
  subst h2
  subst h3
  have hne : transcript ≠ [] := by
    intro hT
    subst hT
    cases unflushed with
    | nil => exact h4 rfl
    | cons a l => exact absurd (h5 a (by simp)) (by simp)
  refine ⟨rfl, ?_, ?_⟩
  · unfold toggleRecordingStop
    simp [List.isEmpty_iff, hne]
  · intro s hs
    exact List.mem_map_of_mem _ (h5 s hs)

/-- Witness for C7 at a concrete input: stopping with the one-segment
transcript still unflushed issues exactly the one request covering it. -/
theorem c7_witness :
    (toggleRecordingStop true true true [segA]).1 = false ∧
    (toggleRecordingStop true true true [segA]).2 = [[segA].map TranscriptSeg.id] :=
  ⟨(c7_final_flush true true true [segA] [segA] rfl rfl rfl (by decide) (by decide)).1,
    (c7_final_flush true true true [segA] [segA] rfl rfl rfl (by decide) (by decide)).2.1⟩

/-! ## Claim C8: fail-fast credential checks and rejected failures -/

/-- C8 counterexample: a startRecognition call with every credential empty
but made while recognition is already active returns as a successful no-op
(no network request either), rather than failing with a configuration error
as the claim demands of every call with missing credentials. -/
theorem c8_counterexample :
    (startRecognitionRun true ⟨"", "", ""⟩ NetOutcome.failure).result = Except.ok () ∧
    (startRecognitionRun true ⟨"", "", ""⟩ NetOutcome.failure).result ≠
      Except.error OpError.notConfigured ∧
    (startRecognitionRun true ⟨"", "", ""⟩ NetOutcome.failure).requests = 0 := by
  refine ⟨rfl, ?_, rfl⟩
  intro h
  simp [startRecognitionRun] at h

/-- C8 (amended): generateSummary, answerQuestion and startRecognition with
an empty credential field reject with the configuration error and attempt no
network request — except that a startRecognition call made while recognition
is already active returns immediately as a no-op, with no error and no
request, whatever the configuration; and with credentials present a network
or authentication failure rejects the operation rather than resolving it
(for answerQuestion, whenever the question is not answered locally as a
real-time time/date question). -/
theorem c8_failfast_and_rejection :
    (∀ (cfg : AzureOpenAIConfig) (net : NetOutcome),
        openAIConfigMissing cfg = true →
        generateSummaryRun cfg net = ⟨0, .error .notConfigured⟩) ∧
    (∀ (cfg : AzureOpenAIConfig) (net : NetOutcome) (tt dt q : Str),
        openAIConfigMissing cfg = true →
        answerQuestionRun cfg net tt dt q = ⟨0, .error .notConfigured⟩) ∧
    (∀ (cfg : AzureSTTConfig) (net : NetOutcome),
        sttConfigMissing cfg = true →
        startRecognitionRun false cfg net = ⟨0, .error .notConfigured⟩) ∧
    (∀ (cfg : AzureSTTConfig) (net : NetOutcome),
        startRecognitionRun true cfg net = ⟨0, .ok ()⟩) ∧
    (∀ (cfg : AzureOpenAIConfig),
        openAIConfigMissing cfg = false →
        generateSummaryRun cfg .failure = ⟨1, .error .requestFailed⟩) ∧
    (∀ (cfg : AzureOpenAIConfig) (tt dt q : Str),
        openAIConfigMissing cfg = false →
        handleRealTimeQuestion tt dt q = none →
        answerQuestionRun cfg .failure tt dt q = ⟨1, .error .requestFailed⟩) ∧
    (∀ (cfg : AzureSTTConfig),
        sttConfigMissing cfg = false →
        startRecognitionRun false cfg .failure = ⟨1, .error .requestFailed⟩) := by
  refine ⟨?_, ?_, ?_, ?_, ?_, ?_, ?_⟩
  · intro cfg net h
    simp [generateSummaryRun, h]
  · intro cfg net tt dt q h
    simp [answerQuestionRun, h]
  · intro cfg net h
    simp [startRecognitionRun, h]
  · intro cfg net
    simp [startRecognitionRun]
  · intro cfg h
    simp [generateSummaryRun, h]
  · intro cfg tt dt q h hrt
    simp [answerQuestionRun, h, hrt]
  · intro cfg h
    simp [startRecognitionRun, h]

/-- Witness for C8 (amended) at concrete inputs: an empty endpoint makes
each operation reject with the configuration error and zero requests, and
with credentials present a failing network call rejects each operation. -/
theorem c8_witness :
    generateSummaryRun ⟨"", "k", "d"⟩ NetOutcome.failure = ⟨0, .error .notConfigured⟩ ∧
    answerQuestionRun ⟨"", "k", "d"⟩ NetOutcome.failure [] [] [] = ⟨0, .error .notConfigured⟩ ∧
    startRecognitionRun false ⟨"", "r", "k"⟩ NetOutcome.failure = ⟨0, .error .notConfigured⟩ ∧
    startRecognitionRun true ⟨"", "", ""⟩ NetOutcome.failure = ⟨0, .ok ()⟩ ∧
    generateSummaryRun ⟨"e", "k", "d"⟩ NetOutcome.failure = ⟨1, .error .requestFailed⟩ ∧
    answerQuestionRun ⟨"e", "k", "d"⟩ NetOutcome.failure "T".toList "D".toList "Who won the game".toList = ⟨1, .error .requestFailed⟩ ∧
    startRecognitionRun false ⟨"e", "r", "k"⟩ NetOutcome.failure = ⟨1, .error .requestFailed⟩ := by
  obtain ⟨h1, h2, h3, h4, h5, h6, h7⟩ := c8_failfast_and_rejection
  exact ⟨h1 ⟨"", "k", "d"⟩ NetOutcome.failure (by decide),
    h2 ⟨"", "k", "d"⟩ NetOutcome.failure [] [] [] (by decide),
    h3 ⟨"", "r", "k"⟩ NetOutcome.failure (by decide),
    h4 ⟨"", "", ""⟩ NetOutcome.failure,
    h5 ⟨"e", "k", "d"⟩ (by decide),
    h6 ⟨"e", "k", "d"⟩ ("T".toList) ("D".toList) ("Who won the game".toList) (by decide) (by decide),
    h7 ⟨"e", "r", "k"⟩ (by decide)⟩

/-! ## Claim C10: every handled question is recorded -/

/-- C10: with the LLM service initialized, exactly one QAPair is appended
whether answerQuestion resolves or rejects; on rejection the appended pair
carries the fallback answer text with the isManual flag of the entry point
(false for speech-detected, true for manual questions), and on success it
carries the resolved answer. -/
theorem c10_qa_always_appended :
    (∀ (outcome : NetOutcome) (q : Str) (now : Int) (l : List QAPair),
        (handleQuestion true outcome q now l).length = l.length + 1) ∧
    (∀ (outcome : NetOutcome) (q : Str) (now : Int) (l : List QAPair),
        (askQuestion true outcome q now l).length = l.length + 1) ∧
    (∀ (q : Str) (now : Int) (l : List QAPair),
        handleQuestion true .failure q now l = l ++ [⟨now, q, fallbackAnswer, now, false⟩]) ∧
    (∀ (q : Str) (now : Int) (l : List QAPair),
        askQuestion true .failure q now l = l ++ [⟨now, q, fallbackAnswer, now, true⟩]) ∧
    (∀ (a q : Str) (now : Int) (l : List QAPair),
        handleQuestion true (.success a) q now l = l ++ [⟨now, q, a, now, false⟩]) ∧
    (∀ (a q : Str) (now : Int) (l : List QAPair),
        askQuestion true (.success a) q now l = l ++ [⟨now, q, a, now, true⟩]) := by
  refine ⟨?_, ?_, ?_, ?_, ?_, ?_⟩
  · intro outcome q now l
    cases outcome <;> simp [handleQuestion]
  · intro outcome q now l
    cases outcome <;> simp [askQuestion]
  · intro q now l
    simp [handleQuestion]
  · intro q now l
    simp [askQuestion]
  · intro a q now l
    simp [handleQuestion]
  · intro a q now l
    simp [askQuestion]

end ConversationWill
